import Mathlib

/-!
Verification of the ext_session_lock_v1 Wayland protocol binding
(package ext_session_lock): proxy objects, request encoding, event
dispatch and the listener registry, shallowly embedded in Lean.

Handlers are identified by a numeric identity (Go compares listener
interface values by identity when removing).  Lock acquisition,
release and listener invocation are recorded as an explicit trace of
atomic actions so that the locking discipline of the source is a
provable property of each operation.  The external wl.Context wire
context is not part of the repository source; it is modelled from the
specification where noted.
-/

namespace ExtSessionLock

/-- Protocol request constant for ext_session_lock_manager_v1. -/
def ManagerRequestDestroy : Nat := 0

/-- Protocol request constant for ext_session_lock_manager_v1. -/
def ManagerRequestLock : Nat := 1

/-- Protocol request constant for ext_session_lock_v1. -/
def LockRequestDestroy : Nat := 0

/-- Protocol request constant for ext_session_lock_v1. -/
def LockRequestGetLockSurface : Nat := 1

/-- Protocol request constant for ext_session_lock_v1. -/
def LockRequestUnlockAndDestroy : Nat := 2

/-- Protocol event constant for ext_session_lock_v1. -/
def LockEventLocked : Nat := 0

/-- Protocol event constant for ext_session_lock_v1. -/
def LockEventFinished : Nat := 1

/-- Protocol request constant for ext_session_lock_surface_v1. -/
def SurfaceRequestDestroy : Nat := 0

/-- Protocol request constant for ext_session_lock_surface_v1. -/
def SurfaceRequestAckConfigure : Nat := 1

/-- Protocol event constant for ext_session_lock_surface_v1. -/
def SurfaceEventConfigure : Nat := 0

/-- Identity of a registered listener.  Go stores listeners as interface
values and compares them by identity; we model each listener value by a
numeric identity. -/
abbrev HandlerId := Nat

/-- SessionLockLockedEvent represents the locked event (empty payload). -/
structure SessionLockLockedEvent where
deriving DecidableEq, Repr

/-- SessionLockFinishedEvent represents the finished event (empty payload). -/
structure SessionLockFinishedEvent where
deriving DecidableEq, Repr

/-- SessionLockSurfaceConfigureEvent represents the configure event.
Fields are uint32 values on the wire, modelled as Nat (no arithmetic is
performed on them). -/
structure SessionLockSurfaceConfigureEvent where
  Serial : Nat
  Width : Nat
  Height : Nat
deriving DecidableEq, Repr

/-- Modelled from the spec: an inbound wl.Event carries an opcode and a
payload cursor of uint32 fields in the transport's defined order; the
binding consumes the fields sequentially. -/
structure Event where
  Opcode : Nat
  payload : List Nat
deriving DecidableEq, Repr

/-- Modelled from the spec: wl.Event.Uint32 reads the next uint32 field
from the payload cursor and advances the cursor. -/
def Event.Uint32 (e : Event) : Nat × Event :=
  (e.payload.headD 0, { e with payload := e.payload.tail })

/-- Atomic actions observable during listener registration and event
dispatch: read/write acquisitions and releases of an object's RWMutex,
and the synchronous invocation of one listener with one decoded event
value.  Each operation of the binding is given the list of actions it
performs, in program order. -/
inductive Action where
  | rlock : Action
  | runlock : Action
  | wlock : Action
  | wunlock : Action
  | invokeLocked : HandlerId → SessionLockLockedEvent → Action
  | invokeFinished : HandlerId → SessionLockFinishedEvent → Action
  | invokeConfigure : HandlerId → SessionLockSurfaceConfigureEvent → Action
deriving DecidableEq, Repr

/-- An action that invokes a listener. -/
def Action.isInvoke : Action → Bool
  | Action.invokeLocked _ _ => true
  | Action.invokeFinished _ _ => true
  | Action.invokeConfigure _ _ => true
  | _ => false

/-- SessionLockManager represents an ext_session_lock_manager_v1 object.
The BaseProxy part is the object ID assigned at registration. -/
structure SessionLockManager where
  id : Nat
deriving DecidableEq, Repr

/-- SessionLock represents an ext_session_lock_v1 object: its object ID
plus the two listener collections guarded by its RWMutex. -/
structure SessionLock where
  id : Nat
  privateSessionLockLocked : List HandlerId
  privateSessionLockFinished : List HandlerId
deriving DecidableEq, Repr

/-- SessionLockSurface represents an ext_session_lock_surface_v1 object:
its object ID plus the configure listener collection guarded by its
RWMutex. -/
structure SessionLockSurface where
  id : Nat
  privateSessionLockSurfaceConfigure : List HandlerId
deriving DecidableEq, Repr

/-- Dispatch dispatches event for SessionLockManager: the manager has no
events, so nothing happens for any opcode. -/
def SessionLockManager.Dispatch (m : SessionLockManager) (event : Event) :
    SessionLockManager × Event × List Action :=
  (m, event, [])

/-- Dispatch dispatches event for SessionLock.  Mirrors the source: a
switch on the opcode; for a known opcode, if the matching listener
collection is non-empty (checked before taking the lock), an empty event
value is synthesized and fanned out to every listener in order under a
read lock. -/
def SessionLock.Dispatch (l : SessionLock) (event : Event) :
    SessionLock × Event × List Action :=
  if event.Opcode = LockEventLocked then
    if 0 < l.privateSessionLockLocked.length then
      let ev : SessionLockLockedEvent := {}
      (l, event,
        [Action.rlock]
          ++ l.privateSessionLockLocked.map (fun h => Action.invokeLocked h ev)
          ++ [Action.runlock])
    else (l, event, [])
  else if event.Opcode = LockEventFinished then
    if 0 < l.privateSessionLockFinished.length then
      let ev : SessionLockFinishedEvent := {}
      (l, event,
        [Action.rlock]
          ++ l.privateSessionLockFinished.map (fun h => Action.invokeFinished h ev)
          ++ [Action.runlock])
    else (l, event, [])
  else (l, event, [])

/-- Dispatch dispatches event for SessionLockSurface.  Mirrors the
source: on the configure opcode with a non-empty listener collection
(checked before taking the lock), three uint32 fields are read from the
payload in the order serial, width, height, then the event is fanned out
to every listener in order under a read lock. -/
def SessionLockSurface.Dispatch (s : SessionLockSurface) (event : Event) :
    SessionLockSurface × Event × List Action :=
  if event.Opcode = SurfaceEventConfigure then
    if 0 < s.privateSessionLockSurfaceConfigure.length then
      let p1 := event.Uint32
      let p2 := p1.2.Uint32
      let p3 := p2.2.Uint32
      let ev : SessionLockSurfaceConfigureEvent :=
        { Serial := p1.1, Width := p2.1, Height := p3.1 }
      (s, p3.2,
        [Action.rlock]
          ++ s.privateSessionLockSurfaceConfigure.map
              (fun h => Action.invokeConfigure h ev)
          ++ [Action.runlock])
    else (s, event, [])
  else (s, event, [])

/-- Removal of the first listener equal to the argument, mirroring the
source loop: scan in order, splice out the first match and break;
no-op when no element matches. -/
def removeFirst (h : HandlerId) : List HandlerId → List HandlerId
  | [] => []
  | e :: rest => if e = h then rest else e :: removeFirst h rest

/-- AddLockedHandler adds the Locked handler: no-op on a nil handler,
otherwise appends under the write lock. -/
def SessionLock.AddLockedHandler (l : SessionLock) (h : Option HandlerId) :
    SessionLock × List Action :=
  match h with
  | some hid =>
    ({ l with privateSessionLockLocked := l.privateSessionLockLocked ++ [hid] },
      [Action.wlock, Action.wunlock])
  | none => (l, [])

/-- RemoveLockedHandler removes the first Locked handler equal to the
argument, under the write lock. -/
def SessionLock.RemoveLockedHandler (l : SessionLock) (h : HandlerId) :
    SessionLock × List Action :=
  ({ l with privateSessionLockLocked := removeFirst h l.privateSessionLockLocked },
    [Action.wlock, Action.wunlock])

/-- AddFinishedHandler adds the Finished handler: no-op on a nil handler,
otherwise appends under the write lock. -/
def SessionLock.AddFinishedHandler (l : SessionLock) (h : Option HandlerId) :
    SessionLock × List Action :=
  match h with
  | some hid =>
    ({ l with privateSessionLockFinished := l.privateSessionLockFinished ++ [hid] },
      [Action.wlock, Action.wunlock])
  | none => (l, [])

/-- RemoveFinishedHandler removes the first Finished handler equal to the
argument, under the write lock. -/
def SessionLock.RemoveFinishedHandler (l : SessionLock) (h : HandlerId) :
    SessionLock × List Action :=
  ({ l with privateSessionLockFinished := removeFirst h l.privateSessionLockFinished },
    [Action.wlock, Action.wunlock])

/-- AddConfigureHandler adds the Configure handler: no-op on a nil
handler, otherwise appends under the write lock. -/
def SessionLockSurface.AddConfigureHandler (s : SessionLockSurface)
    (h : Option HandlerId) : SessionLockSurface × List Action :=
  match h with
  | some hid =>
    ({ s with privateSessionLockSurfaceConfigure :=
        s.privateSessionLockSurfaceConfigure ++ [hid] },
      [Action.wlock, Action.wunlock])
  | none => (s, [])

/-- RemoveConfigureHandler removes the first Configure handler equal to
the argument, under the write lock. -/
def SessionLockSurface.RemoveConfigureHandler (s : SessionLockSurface)
    (h : HandlerId) : SessionLockSurface × List Action :=
  ({ s with privateSessionLockSurfaceConfigure :=
      removeFirst h s.privateSessionLockSurfaceConfigure },
    [Action.wlock, Action.wunlock])

/-- A request argument on the wire: a uint32 literal, or a protocol
object sent as its object ID (the new-object-id argument is the freshly
registered child proxy, sent the same way). -/
inductive Arg where
  | uint : Nat → Arg
  | obj : Nat → Arg
deriving DecidableEq, Repr

/-- One outbound request message: sending proxy ID, opcode and the
ordered argument list. -/
structure Message where
  senderId : Nat
  opcode : Nat
  args : List Arg
deriving DecidableEq, Repr

/-- An operation performed on the wire context, in program order:
registration of a proxy under a fresh ID, or submission of one request
message to the transport. -/
inductive CtxOp where
  | register : Nat → CtxOp
  | send : Message → CtxOp
deriving DecidableEq, Repr

/-- Whether a context operation is a transport submission. -/
def CtxOp.isSend : CtxOp → Bool
  | CtxOp.send _ => true
  | _ => false

/-- A transport error returned by a failed send. -/
inductive WlError where
  | sendFailed : WlError
deriving DecidableEq, Repr

/-- A registered proxy object, as stored in the wire context registry. -/
inductive ProxyObj where
  | manager : SessionLockManager → ProxyObj
  | lock : SessionLock → ProxyObj
  | lockSurface : SessionLockSurface → ProxyObj
deriving DecidableEq, Repr

/-- Modelled from the spec: the external wl.Context wire context.  It
assigns object IDs, holds a registry mapping ID to proxy object, records
outbound messages, and logs its operations in order.  The sendFails flag
models whether the underlying transport send fails. -/
structure Context where
  nextId : Nat
  registry : List (Nat × ProxyObj)
  outbox : List Message
  oplog : List CtxOp
  sendFails : Bool
deriving DecidableEq, Repr

/-- Modelled from the spec: registration assigns a fresh ID and stores
the object in the context registry keyed by that ID, so inbound events
addressed to the ID can be routed to its dispatch routine. -/
def Context.Register (ctx : Context) (mk : Nat → ProxyObj) : Context × Nat :=
  ({ ctx with
      nextId := ctx.nextId + 1,
      registry := ctx.registry ++ [(ctx.nextId, mk ctx.nextId)],
      oplog := ctx.oplog ++ [CtxOp.register ctx.nextId] },
    ctx.nextId)

/-- Modelled from the spec: sendRequest submits one outbound message
(proxy, opcode, ordered args) to the transport and returns the transport
error when the underlying send fails; the request is never retried. -/
def Context.SendRequest (ctx : Context) (senderId : Nat) (opcode : Nat)
    (args : List Arg) : Context × Option WlError :=
  let msg : Message := { senderId := senderId, opcode := opcode, args := args }
  ({ ctx with
      outbox := ctx.outbox ++ [msg],
      oplog := ctx.oplog ++ [CtxOp.send msg] },
    if ctx.sendFails then some WlError.sendFailed else none)

/-- Look up the proxy registered under an ID (first entry with that
key). -/
def lookupProxy (id : Nat) : List (Nat × ProxyObj) → Option ProxyObj
  | [] => none
  | (i, p) :: rest => if i = id then some p else lookupProxy id rest

/-- Replace the proxy registered under an ID (first entry with that
key). -/
def updateProxy (id : Nat) (p : ProxyObj) :
    List (Nat × ProxyObj) → List (Nat × ProxyObj)
  | [] => []
  | (i, q) :: rest =>
    if i = id then (i, p) :: rest else (i, q) :: updateProxy id p rest

/-- Modelled from the spec: inbound events are demultiplexed by object ID
and delivered to the registered proxy's dispatch routine; an event for an
unregistered ID is dropped. -/
def Context.dispatchEvent (ctx : Context) (id : Nat) (event : Event) :
    Context × List Action :=
  match lookupProxy id ctx.registry with
  | none => (ctx, [])
  | some (ProxyObj.manager m) =>
    let r := m.Dispatch event
    ({ ctx with registry := updateProxy id (ProxyObj.manager r.1) ctx.registry },
      r.2.2)
  | some (ProxyObj.lock l) =>
    let r := l.Dispatch event
    ({ ctx with registry := updateProxy id (ProxyObj.lock r.1) ctx.registry },
      r.2.2)
  | some (ProxyObj.lockSurface s) =>
    let r := s.Dispatch event
    ({ ctx with registry := updateProxy id (ProxyObj.lockSurface r.1) ctx.registry },
      r.2.2)

/-- Calling AddLockedHandler through the registered proxy: in Go the
returned proxy aliases the registry entry, so attaching a listener
mutates the registered object; here the registry entry is updated
explicitly. -/
def Context.addLockedHandlerOn (ctx : Context) (id : Nat)
    (h : Option HandlerId) : Context :=
  match lookupProxy id ctx.registry with
  | some (ProxyObj.lock l) =>
    { ctx with
        registry := updateProxy id (ProxyObj.lock (l.AddLockedHandler h).1)
          ctx.registry }
  | _ => ctx

/-- Calling AddConfigureHandler through the registered proxy: in Go the
returned proxy aliases the registry entry, so attaching a listener
mutates the registered object; here the registry entry is updated
explicitly. -/
def Context.addConfigureHandlerOn (ctx : Context) (id : Nat)
    (h : Option HandlerId) : Context :=
  match lookupProxy id ctx.registry with
  | some (ProxyObj.lockSurface s) =>
    { ctx with
        registry := updateProxy id
          (ProxyObj.lockSurface (s.AddConfigureHandler h).1) ctx.registry }
  | _ => ctx

/-- NewSessionLockManager is a constructor for the SessionLockManager
object: allocates the proxy and registers it with the context. -/
def NewSessionLockManager (ctx : Context) : Context × SessionLockManager :=
  let ret : SessionLockManager := { id := ctx.nextId }
  ((ctx.Register (fun i => ProxyObj.manager { id := i })).1, ret)

/-- NewSessionLock is a constructor for the SessionLock object: allocates
the proxy (with empty listener collections) and registers it with the
context. -/
def NewSessionLock (ctx : Context) : Context × SessionLock :=
  let ret : SessionLock :=
    { id := ctx.nextId, privateSessionLockLocked := [],
      privateSessionLockFinished := [] }
  ((ctx.Register (fun _ => ProxyObj.lock ret)).1, ret)

/-- NewSessionLockSurface is a constructor for the SessionLockSurface
object: allocates the proxy (with an empty listener collection) and
registers it with the context. -/
def NewSessionLockSurface (ctx : Context) : Context × SessionLockSurface :=
  let ret : SessionLockSurface :=
    { id := ctx.nextId, privateSessionLockSurfaceConfigure := [] }
  ((ctx.Register (fun _ => ProxyObj.lockSurface ret)).1, ret)

/-- A wl.Surface argument proxy, modelled by its object ID. -/
structure WlSurface where
  id : Nat
deriving DecidableEq, Repr

/-- A wl.Output argument proxy, modelled by its object ID. -/
structure WlOutput where
  id : Nat
deriving DecidableEq, Repr

/-- Destroy destroys the session lock manager object. -/
def SessionLockManager.Destroy (m : SessionLockManager) (ctx : Context) :
    Context × Option WlError :=
  ctx.SendRequest m.id ManagerRequestDestroy []

/-- Lock attempts to lock the session: allocates and registers the new
SessionLock proxy first, then sends the request with the new proxy as its
only argument; returns the proxy together with the send result. -/
def SessionLockManager.Lock (m : SessionLockManager) (ctx : Context) :
    (SessionLock × Option WlError) × Context :=
  let alloc := NewSessionLock ctx
  let send := alloc.1.SendRequest m.id ManagerRequestLock [Arg.obj alloc.2.id]
  ((alloc.2, send.2), send.1)

/-- Destroy destroys the session lock. -/
def SessionLock.Destroy (l : SessionLock) (ctx : Context) :
    Context × Option WlError :=
  ctx.SendRequest l.id LockRequestDestroy []

/-- GetLockSurface creates a lock surface for a given output: allocates
and registers the new SessionLockSurface proxy first, then sends the
request with arguments in the order new proxy, surface, output. -/
def SessionLock.GetLockSurface (l : SessionLock) (ctx : Context)
    (surface : WlSurface) (output : WlOutput) :
    (SessionLockSurface × Option WlError) × Context :=
  let alloc := NewSessionLockSurface ctx
  let send := alloc.1.SendRequest l.id LockRequestGetLockSurface
    [Arg.obj alloc.2.id, Arg.obj surface.id, Arg.obj output.id]
  ((alloc.2, send.2), send.1)

/-- UnlockAndDestroy unlocks the session and destroys the object. -/
def SessionLock.UnlockAndDestroy (l : SessionLock) (ctx : Context) :
    Context × Option WlError :=
  ctx.SendRequest l.id LockRequestUnlockAndDestroy []

/-- Destroy destroys the lock surface object. -/
def SessionLockSurface.Destroy (s : SessionLockSurface) (ctx : Context) :
    Context × Option WlError :=
  ctx.SendRequest s.id SurfaceRequestDestroy []

/-- AckConfigure acknowledges a configure event. -/
def SessionLockSurface.AckConfigure (s : SessionLockSurface) (ctx : Context)
    (serial : Nat) : Context × Option WlError :=
  ctx.SendRequest s.id SurfaceRequestAckConfigure [Arg.uint serial]

/-- An untyped listener value passed to the AddListener helpers: Go type
assertions against the handler interfaces are modelled by capability
flags on the value. -/
structure DynHandler where
  id : HandlerId
  implementsLocked : Bool
  implementsFinished : Bool
  implementsConfigure : Bool
deriving DecidableEq, Repr

/-- SessionLockManagerAddListener adds a listener for session lock
manager events; the manager has no events, so this is a no-op. -/
def SessionLockManagerAddListener (m : SessionLockManager) (_h : DynHandler) :
    SessionLockManager :=
  m

/-- SessionLockAddListener adds all listeners for session lock events:
registers the value for the locked event when it implements the locked
handler interface, and independently for the finished event when it
implements the finished handler interface. -/
def SessionLockAddListener (l : SessionLock) (h : DynHandler) : SessionLock :=
  let l1 :=
    if h.implementsLocked then (l.AddLockedHandler (some h.id)).1 else l
  if h.implementsFinished then (l1.AddFinishedHandler (some h.id)).1 else l1

/-- SessionLockSurfaceAddListener adds a listener for session lock
surface events: registers the value for the configure event when it
implements the configure handler interface. -/
def SessionLockSurfaceAddListener (s : SessionLockSurface) (h : DynHandler) :
    SessionLockSurface :=
  if h.implementsConfigure then (s.AddConfigureHandler (some h.id)).1 else s

/-- Well-formedness of the wire context: every registered ID is below the
next ID to be assigned, so freshly assigned IDs are previously unused. -/
abbrev Context.wf (ctx : Context) : Prop :=
  ∀ p ∈ ctx.registry, p.1 < ctx.nextId

theorem removeFirst_of_not_mem (h : HandlerId) :
    ∀ xs : List HandlerId, h ∉ xs → removeFirst h xs = xs := by
  intro xs
  induction xs with
  | nil => intro _; rfl
  | cons e rest ih =>
    intro hmem
    have he : e ≠ h := fun hc => hmem (hc ▸ List.mem_cons_self e rest)
    have hrest : h ∉ rest := fun hc => hmem (List.mem_cons_of_mem e hc)
    simp [removeFirst, he, ih hrest]

theorem removeFirst_append_not_mem (h : HandlerId) :
    ∀ (pre post : List HandlerId), h ∉ pre →
      removeFirst h (pre ++ h :: post) = pre ++ post := by
  intro pre
  induction pre with
  | nil => intro post _; simp [removeFirst]
  | cons e rest ih =>
    intro post hmem
    have he : e ≠ h := fun hc => hmem (hc ▸ List.mem_cons_self e rest)
    have hrest : h ∉ rest := fun hc => hmem (List.mem_cons_of_mem e hc)
    simp [removeFirst, he, ih post hrest]

theorem removeFirst_sublist (h : HandlerId) :
    ∀ xs : List HandlerId, (removeFirst h xs).Sublist xs := by
  intro xs
  induction xs with
  | nil => exact List.Sublist.refl []
  | cons e rest ih =>
    by_cases he : e = h
    · simp [removeFirst, he]
    · simpa [removeFirst, he] using ih

theorem count_removeFirst_ne (h g : HandlerId) (hne : g ≠ h) :
    ∀ xs : List HandlerId, (removeFirst h xs).count g = xs.count g := by
  intro xs
  induction xs with
  | nil => rfl
  | cons e rest ih =>
    by_cases he : e = h
    · have hg : ¬h = g := fun hc => hne hc.symm
      simp [removeFirst, he, List.count_cons, hg]
    · simp [removeFirst, he, List.count_cons, ih]

theorem lookupProxy_append_fresh (id : Nat) (p : ProxyObj) :
    ∀ rs : List (Nat × ProxyObj), (∀ q ∈ rs, q.1 ≠ id) →
      lookupProxy id (rs ++ [(id, p)]) = some p := by
  intro rs
  induction rs with
  | nil => intro _; simp [lookupProxy]
  | cons q rest ih =>
    intro hfresh
    obtain ⟨i, po⟩ := q
    have hi : i ≠ id := hfresh (i, po) (List.mem_cons_self _ _)
    have hrest : ∀ q ∈ rest, q.1 ≠ id :=
      fun q hq => hfresh q (List.mem_cons_of_mem _ hq)
    simp [lookupProxy, hi, ih hrest]

theorem lookupProxy_update_found (id : Nat) (p : ProxyObj) :
    ∀ rs : List (Nat × ProxyObj), lookupProxy id rs ≠ none →
      lookupProxy id (updateProxy id p rs) = some p := by
  intro rs
  induction rs with
  | nil => intro hc; exact absurd rfl hc
  | cons q rest ih =>
    intro hfound
    obtain ⟨i, po⟩ := q
    by_cases hi : i = id
    · simp [lookupProxy, updateProxy, hi]
    · simp only [lookupProxy, updateProxy, hi, if_false] at hfound ⊢
      exact ih hfound

/-- The sequence of listeners invoked with the locked event in an action
trace, in invocation order. -/
def lockedTraceOf : List Action → List HandlerId
  | [] => []
  | Action.invokeLocked h _ :: rest => h :: lockedTraceOf rest
  | Action.invokeFinished _ _ :: rest => lockedTraceOf rest
  | Action.invokeConfigure _ _ :: rest => lockedTraceOf rest
  | Action.rlock :: rest => lockedTraceOf rest
  | Action.runlock :: rest => lockedTraceOf rest
  | Action.wlock :: rest => lockedTraceOf rest
  | Action.wunlock :: rest => lockedTraceOf rest

theorem lockedTraceOf_append :
    ∀ a b : List Action, lockedTraceOf (a ++ b) = lockedTraceOf a ++ lockedTraceOf b := by
  intro a b
  induction a with
  | nil => rfl
  | cons x rest ih => cases x <;> simp [lockedTraceOf, ih]

theorem lockedTraceOf_map_invoke (ev : SessionLockLockedEvent) :
    ∀ xs : List HandlerId,
      lockedTraceOf (xs.map (fun h => Action.invokeLocked h ev)) = xs := by
  intro xs
  induction xs with
  | nil => rfl
  | cons x rest ih => simp [lockedTraceOf, ih]

theorem lockedTraceOf_dispatch (l : SessionLock) (p : List Nat) :
    lockedTraceOf (l.Dispatch { Opcode := LockEventLocked, payload := p }).2.2
      = l.privateSessionLockLocked := by
  by_cases hl : l.privateSessionLockLocked = []
  · simp [SessionLock.Dispatch, hl, lockedTraceOf]
  · have hl2 : 0 < l.privateSessionLockLocked.length := List.length_pos.mpr hl
    simp [SessionLock.Dispatch, hl2, lockedTraceOf, lockedTraceOf_append,
      lockedTraceOf_map_invoke]

/-- n successive deliveries of a locked event to the same lock object,
as one concatenated action trace (dispatch does not change the object). -/
def dispatchLockedN (l : SessionLock) : Nat → List Action
  | 0 => []
  | n + 1 =>
    (l.Dispatch { Opcode := LockEventLocked, payload := [] }).2.2
      ++ dispatchLockedN l n

theorem count_dispatchLockedN (l : SessionLock) (h : HandlerId) :
    ∀ n : Nat, (lockedTraceOf (dispatchLockedN l n)).count h
      = n * l.privateSessionLockLocked.count h := by
  intro n
  induction n with
  | zero => simp [dispatchLockedN, lockedTraceOf]
  | succ k ih =>
    simp [dispatchLockedN, lockedTraceOf_append, List.count_append,
      lockedTraceOf_dispatch, ih, Nat.succ_mul]
    omega

/-- C1: Every request method emits exactly the opcode and ordered
argument list fixed by the protocol table: Manager.Destroy, Lock.Destroy
and LockSurface.Destroy send opcode 0 with no arguments; Manager.Lock
sends opcode 1 with the newly allocated SessionLock proxy as its only
argument; Lock.GetLockSurface sends opcode 1 with arguments in the order
new LockSurface proxy, surface, output; Lock.UnlockAndDestroy sends
opcode 2 with no arguments; LockSurface.AckConfigure sends opcode 1 with
the single uint32 argument serial. -/
theorem requests_emit_protocol_table (ctx : Context) (m : SessionLockManager)
    (l : SessionLock) (s : SessionLockSurface) (surface : WlSurface)
    (output : WlOutput) (serial : Nat) :
    (m.Destroy ctx).1.outbox
      = ctx.outbox ++ [Message.mk m.id 0 []] ∧
    (m.Lock ctx).2.outbox
      = ctx.outbox ++ [Message.mk m.id 1 [Arg.obj (m.Lock ctx).1.1.id]] ∧
    (l.Destroy ctx).1.outbox
      = ctx.outbox ++ [Message.mk l.id 0 []] ∧
    (l.GetLockSurface ctx surface output).2.outbox
      = ctx.outbox ++ [Message.mk l.id 1
          [Arg.obj (l.GetLockSurface ctx surface output).1.1.id,
            Arg.obj surface.id, Arg.obj output.id]] ∧
    (l.UnlockAndDestroy ctx).1.outbox
      = ctx.outbox ++ [Message.mk l.id 2 []] ∧
    (s.Destroy ctx).1.outbox
      = ctx.outbox ++ [Message.mk s.id 0 []] ∧
    (s.AckConfigure ctx serial).1.outbox
      = ctx.outbox ++ [Message.mk s.id 1 [Arg.uint serial]] :=
  ⟨rfl, rfl, rfl, rfl, rfl, rfl, rfl⟩

/-- C3: Event decoding is fixed per object type and opcode: a SessionLock
dispatch with opcode 0 synthesizes an empty locked event and fans it out
to the locked listeners, opcode 1 an empty finished event to the finished
listeners; a SessionLockSurface dispatch with opcode 0 decodes three
uint32 payload fields in the order serial, width, height, and every
configure listener receives the event with exactly those field values, in
registration order. -/
theorem dispatch_decodes_fixed_layout (l : SessionLock) (s : SessionLockSurface)
    (serial width height : Nat) (rest : List Nat)
    (hl : l.privateSessionLockLocked ≠ [])
    (hf : l.privateSessionLockFinished ≠ [])
    (hc : s.privateSessionLockSurfaceConfigure ≠ []) :
    (l.Dispatch { Opcode := LockEventLocked, payload := [] }).2.2
      = [Action.rlock]
        ++ l.privateSessionLockLocked.map (fun h => Action.invokeLocked h {})
        ++ [Action.runlock] ∧
    (l.Dispatch { Opcode := LockEventFinished, payload := [] }).2.2
      = [Action.rlock]
        ++ l.privateSessionLockFinished.map (fun h => Action.invokeFinished h {})
        ++ [Action.runlock] ∧
    (s.Dispatch (Event.mk SurfaceEventConfigure
        (serial :: width :: height :: rest))).2.2
      = [Action.rlock]
        ++ s.privateSessionLockSurfaceConfigure.map
            (fun h => Action.invokeConfigure h
              (SessionLockSurfaceConfigureEvent.mk serial width height))
        ++ [Action.runlock] := by
  have hl2 : 0 < l.privateSessionLockLocked.length := List.length_pos.mpr hl
  have hf2 : 0 < l.privateSessionLockFinished.length := List.length_pos.mpr hf
  have hc2 : 0 < s.privateSessionLockSurfaceConfigure.length :=
    List.length_pos.mpr hc
  refine ⟨?_, ?_, ?_⟩
  · simp [SessionLock.Dispatch, hl2]
  · simp [SessionLock.Dispatch, LockEventLocked, LockEventFinished, hf2]
  · simp [SessionLockSurface.Dispatch, Event.Uint32, hc2]

/-- Witness for C3 at a lock with one listener each and the configure
payload of the spec scenario: serial 7, width 1920, height 1080. -/
theorem dispatch_decodes_fixed_layout_witness :
    (SessionLockSurface.Dispatch { id := 3, privateSessionLockSurfaceConfigure := [4] }
        { Opcode := SurfaceEventConfigure,
          payload := [7, 1920, 1080] }).2.2
      = [Action.rlock,
          Action.invokeConfigure 4 { Serial := 7, Width := 1920, Height := 1080 },
          Action.runlock] :=
  (dispatch_decodes_fixed_layout
    { id := 2, privateSessionLockLocked := [1], privateSessionLockFinished := [2] }
    { id := 3, privateSessionLockSurfaceConfigure := [4] }
    7 1920 1080 [] (by decide) (by decide) (by decide)).2.2

/-- C5: Dispatching an event whose opcode the object type does not handle
(any opcode other than 0 and 1 for SessionLock, other than 0 for
SessionLockSurface, and every opcode for SessionLockManager) invokes no
listener, raises no error, and leaves the object state and the payload
cursor unchanged. -/
theorem unknown_opcode_ignored (m : SessionLockManager) (l : SessionLock)
    (s : SessionLockSurface) (event : Event) :
    m.Dispatch event = (m, event, []) ∧
    (event.Opcode ≠ LockEventLocked → event.Opcode ≠ LockEventFinished →
      l.Dispatch event = (l, event, [])) ∧
    (event.Opcode ≠ SurfaceEventConfigure →
      s.Dispatch event = (s, event, [])) := by
  refine ⟨rfl, ?_, ?_⟩
  · intro h1 h2
    simp [SessionLock.Dispatch, h1, h2]
  · intro h1
    simp [SessionLockSurface.Dispatch, h1]

/-- Witness for C5 at opcode 5 with a non-empty payload and non-empty
listener collections. -/
theorem unknown_opcode_ignored_witness :
    SessionLock.Dispatch
        { id := 2, privateSessionLockLocked := [1], privateSessionLockFinished := [2] }
        { Opcode := 5, payload := [9] }
      = ({ id := 2, privateSessionLockLocked := [1], privateSessionLockFinished := [2] },
          { Opcode := 5, payload := [9] }, []) :=
  (unknown_opcode_ignored { id := 0 }
    { id := 2, privateSessionLockLocked := [1], privateSessionLockFinished := [2] }
    { id := 3, privateSessionLockSurfaceConfigure := [4] }
    { Opcode := 5, payload := [9] }).2.1 (by decide) (by decide)

/-- C9: When the listener collection for the dispatched opcode is empty,
Dispatch returns immediately: no payload field is consumed (the cursor is
unchanged), no listener is invoked, and no lock action occurs — the
emptiness check happens before the read lock would be taken, so the trace
is empty. -/
theorem empty_listener_dispatch_no_effect (l : SessionLock)
    (s : SessionLockSurface) (p : List Nat) :
    (l.privateSessionLockLocked = [] →
      l.Dispatch { Opcode := LockEventLocked, payload := p }
        = (l, { Opcode := LockEventLocked, payload := p }, [])) ∧
    (l.privateSessionLockFinished = [] →
      l.Dispatch { Opcode := LockEventFinished, payload := p }
        = (l, { Opcode := LockEventFinished, payload := p }, [])) ∧
    (s.privateSessionLockSurfaceConfigure = [] →
      s.Dispatch { Opcode := SurfaceEventConfigure, payload := p }
        = (s, { Opcode := SurfaceEventConfigure, payload := p }, [])) := by
  refine ⟨?_, ?_, ?_⟩
  · intro h
    simp [SessionLock.Dispatch, h]
  · intro h
    simp [SessionLock.Dispatch, LockEventLocked, LockEventFinished, h]
  · intro h
    simp [SessionLockSurface.Dispatch, h]

/-- Witness for C9: a configure event with a three-field payload
delivered to a surface with no listeners is entirely ignored. -/
theorem empty_listener_dispatch_no_effect_witness :
    SessionLockSurface.Dispatch { id := 3, privateSessionLockSurfaceConfigure := [] }
        { Opcode := SurfaceEventConfigure, payload := [7, 1920, 1080] }
      = ({ id := 3, privateSessionLockSurfaceConfigure := [] },
          { Opcode := SurfaceEventConfigure, payload := [7, 1920, 1080] }, []) :=
  (empty_listener_dispatch_no_effect
    { id := 2, privateSessionLockLocked := [], privateSessionLockFinished := [] }
    { id := 3, privateSessionLockSurfaceConfigure := [] }
    [7, 1920, 1080]).2.2 (by decide)

/-- C4: While registered, a listener is invoked exactly once per
dispatched event of its event type: after adding a previously absent
listener, N deliveries of the locked event invoke it exactly N times;
after it is removed, N further deliveries invoke it zero times; and one
fan-out invokes the listeners exactly in registration order. -/
theorem listener_invoked_once_per_dispatch (l : SessionLock) (h : HandlerId)
    (n : Nat) (hmem : h ∉ l.privateSessionLockLocked) :
    (lockedTraceOf (dispatchLockedN (l.AddLockedHandler (some h)).1 n)).count h
      = n ∧
    (lockedTraceOf (dispatchLockedN
        (((l.AddLockedHandler (some h)).1.RemoveLockedHandler h).1) n)).count h
      = 0 ∧
    lockedTraceOf ((l.AddLockedHandler (some h)).1.Dispatch
        (Event.mk LockEventLocked [])).2.2
      = (l.AddLockedHandler (some h)).1.privateSessionLockLocked := by
  have hcount0 : l.privateSessionLockLocked.count h = 0 :=
    List.count_eq_zero_of_not_mem hmem
  have hadd : (l.AddLockedHandler (some h)).1.privateSessionLockLocked
      = l.privateSessionLockLocked ++ [h] := rfl
  have hrem : (((l.AddLockedHandler (some h)).1.RemoveLockedHandler
        h).1).privateSessionLockLocked = l.privateSessionLockLocked := by
    show removeFirst h (l.privateSessionLockLocked ++ [h])
      = l.privateSessionLockLocked
    have := removeFirst_append_not_mem h l.privateSessionLockLocked [] hmem
    simpa using this
  refine ⟨?_, ?_, lockedTraceOf_dispatch _ []⟩
  · rw [count_dispatchLockedN, hadd]
    simp [List.count_append, hcount0]
  · rw [count_dispatchLockedN, hrem]
    simp [hcount0]

/-- Witness for C4 at a lock with listener 9 already registered, adding
listener 7 and delivering three locked events. -/
theorem listener_invoked_once_per_dispatch_witness :
    (lockedTraceOf (dispatchLockedN
        ((SessionLock.mk 2 [9] []).AddLockedHandler (some 7)).1 3)).count 7
      = 3 :=
  (listener_invoked_once_per_dispatch (SessionLock.mk 2 [9] []) 7 3
    (by decide)).1

/-- C6: Dispatch fan-out holds the read lock for the whole iteration over
the listener collection — every dispatch trace is either empty or a read
acquisition, then only listener invocations, then the read release —
while every add and remove of a handler performs its mutation between a
write acquisition and a write release. -/
theorem dispatch_lock_discipline (l : SessionLock) (s : SessionLockSurface)
    (event : Event) (h : HandlerId) :
    ((l.Dispatch event).2.2 = [] ∨
      ∃ invs, (l.Dispatch event).2.2 = Action.rlock :: invs ++ [Action.runlock]
        ∧ ∀ a ∈ invs, a.isInvoke = true) ∧
    ((s.Dispatch event).2.2 = [] ∨
      ∃ invs, (s.Dispatch event).2.2 = Action.rlock :: invs ++ [Action.runlock]
        ∧ ∀ a ∈ invs, a.isInvoke = true) ∧
    (l.AddLockedHandler (some h)).2 = [Action.wlock, Action.wunlock] ∧
    (l.AddFinishedHandler (some h)).2 = [Action.wlock, Action.wunlock] ∧
    (l.RemoveLockedHandler h).2 = [Action.wlock, Action.wunlock] ∧
    (l.RemoveFinishedHandler h).2 = [Action.wlock, Action.wunlock] ∧
    (s.AddConfigureHandler (some h)).2 = [Action.wlock, Action.wunlock] ∧
    (s.RemoveConfigureHandler h).2 = [Action.wlock, Action.wunlock] := by
  refine ⟨?_, ?_, rfl, rfl, rfl, rfl, rfl, rfl⟩
  · by_cases h0 : event.Opcode = LockEventLocked
    · by_cases hl : 0 < l.privateSessionLockLocked.length
      · right
        refine ⟨l.privateSessionLockLocked.map
          (fun x => Action.invokeLocked x {}), ?_, ?_⟩
        · simp [SessionLock.Dispatch, h0, hl]
        · intro a ha
          obtain ⟨x, _, hx⟩ := List.mem_map.mp ha
          rw [hx.symm]
          rfl
      · left
        simp [SessionLock.Dispatch, h0, hl]
    · by_cases h1 : event.Opcode = LockEventFinished
      · by_cases hf : 0 < l.privateSessionLockFinished.length
        · right
          refine ⟨l.privateSessionLockFinished.map
            (fun x => Action.invokeFinished x {}), ?_, ?_⟩
          · simp [SessionLock.Dispatch, h0, h1, hf, LockEventLocked,
              LockEventFinished]
          · intro a ha
            obtain ⟨x, _, hx⟩ := List.mem_map.mp ha
            rw [hx.symm]
            rfl
        · left
          simp [SessionLock.Dispatch, h0, h1, hf, LockEventLocked,
            LockEventFinished]
      · left
        simp [SessionLock.Dispatch, h0, h1]
  · by_cases h0 : event.Opcode = SurfaceEventConfigure
    · by_cases hc : 0 < s.privateSessionLockSurfaceConfigure.length
      · right
        refine ⟨s.privateSessionLockSurfaceConfigure.map
          (fun x => Action.invokeConfigure x
            (SessionLockSurfaceConfigureEvent.mk
              (event.Uint32).1 ((event.Uint32).2.Uint32).1
              (((event.Uint32).2.Uint32).2.Uint32).1)), ?_, ?_⟩
        · simp [SessionLockSurface.Dispatch, h0, hc]
        · intro a ha
          obtain ⟨x, _, hx⟩ := List.mem_map.mp ha
          rw [hx.symm]
          rfl
      · left
        simp [SessionLockSurface.Dispatch, h0, hc]
    · left
      simp [SessionLockSurface.Dispatch, h0]

/-- C8: removeHandler matches by identity and removes at most one entry,
the first match in iteration order; when the listener is absent it is a
no-op; all other listeners keep their multiplicity and their original
order (the result is a sublist of the original collection).  Stated for
both SessionLock.RemoveLockedHandler and
SessionLockSurface.RemoveConfigureHandler. -/
theorem remove_handler_first_match (l : SessionLock) (s : SessionLockSurface)
    (h : HandlerId) :
    ((l.RemoveLockedHandler h).1.privateSessionLockLocked).Sublist
      l.privateSessionLockLocked ∧
    (h ∉ l.privateSessionLockLocked →
      (l.RemoveLockedHandler h).1.privateSessionLockLocked
        = l.privateSessionLockLocked) ∧
    (∀ pre post, h ∉ pre → l.privateSessionLockLocked = pre ++ h :: post →
      (l.RemoveLockedHandler h).1.privateSessionLockLocked = pre ++ post) ∧
    (∀ g, g ≠ h → ((l.RemoveLockedHandler h).1.privateSessionLockLocked).count g
      = l.privateSessionLockLocked.count g) ∧
    ((s.RemoveConfigureHandler h).1.privateSessionLockSurfaceConfigure).Sublist
      s.privateSessionLockSurfaceConfigure ∧
    (h ∉ s.privateSessionLockSurfaceConfigure →
      (s.RemoveConfigureHandler h).1.privateSessionLockSurfaceConfigure
        = s.privateSessionLockSurfaceConfigure) ∧
    (∀ pre post, h ∉ pre →
      s.privateSessionLockSurfaceConfigure = pre ++ h :: post →
      (s.RemoveConfigureHandler h).1.privateSessionLockSurfaceConfigure
        = pre ++ post) ∧
    (∀ g, g ≠ h →
      ((s.RemoveConfigureHandler h).1.privateSessionLockSurfaceConfigure).count g
        = s.privateSessionLockSurfaceConfigure.count g) := by
  refine ⟨removeFirst_sublist h _, removeFirst_of_not_mem h _, ?_, ?_,
    removeFirst_sublist h _, removeFirst_of_not_mem h _, ?_, ?_⟩
  · intro pre post hpre heq
    show removeFirst h l.privateSessionLockLocked = pre ++ post
    rw [heq]
    exact removeFirst_append_not_mem h pre post hpre
  · intro g hg
    exact count_removeFirst_ne h g hg _
  · intro pre post hpre heq
    show removeFirst h s.privateSessionLockSurfaceConfigure = pre ++ post
    rw [heq]
    exact removeFirst_append_not_mem h pre post hpre
  · intro g hg
    exact count_removeFirst_ne h g hg _

/-- Witness for C8: removing listener 1 from the collection [1, 2, 1]
removes exactly the first occurrence, leaving [2, 1]. -/
theorem remove_handler_first_match_witness :
    ((SessionLock.mk 0 [1, 2, 1] []).RemoveLockedHandler
        1).1.privateSessionLockLocked = [2, 1] :=
  (remove_handler_first_match (SessionLock.mk 0 [1, 2, 1] [])
    (SessionLockSurface.mk 0 []) 1).2.2.1 [] [2, 1] (by decide) rfl

/-- C10: The untyped AddListener helpers register by runtime type check:
SessionLockAddListener registers the value for the locked event exactly
when it implements the locked-handler interface and, independently, for
the finished event exactly when it implements the finished-handler
interface (a value implementing both is registered for both by one call,
one implementing neither is ignored); SessionLockSurfaceAddListener does
the same for the configure event; SessionLockManagerAddListener is always
a no-op. -/
theorem add_listener_by_capability (m : SessionLockManager) (l : SessionLock)
    (s : SessionLockSurface) (h : DynHandler) :
    (SessionLockAddListener l h).privateSessionLockLocked
      = l.privateSessionLockLocked
        ++ (if h.implementsLocked then [h.id] else []) ∧
    (SessionLockAddListener l h).privateSessionLockFinished
      = l.privateSessionLockFinished
        ++ (if h.implementsFinished then [h.id] else []) ∧
    (SessionLockAddListener l h).id = l.id ∧
    (SessionLockSurfaceAddListener s h).privateSessionLockSurfaceConfigure
      = s.privateSessionLockSurfaceConfigure
        ++ (if h.implementsConfigure then [h.id] else []) ∧
    (SessionLockSurfaceAddListener s h).id = s.id ∧
    SessionLockManagerAddListener m h = m := by
  obtain ⟨hid, hl, hf, hc⟩ := h
  cases hl <;> cases hf <;> cases hc <;>
    simp [SessionLockAddListener, SessionLockSurfaceAddListener,
      SessionLockManagerAddListener, SessionLock.AddLockedHandler,
      SessionLock.AddFinishedHandler, SessionLockSurface.AddConfigureHandler]

/-- C2: Each proxy-creating request — Manager.Lock and
Lock.GetLockSurface — constructs and registers the child proxy with the
wire context before the request is submitted (the register operation
precedes the send in the context operation log), the returned proxy
carries a freshly assigned, previously unused ID, and an event addressed
to that ID is routed to the proxy's dispatch routine — a locked event
delivered to the new lock ID reaches a listener attached to the returned
SessionLock, and a configure event delivered to the new surface ID
reaches a listener attached to the returned SessionLockSurface, without
any other request completing first. -/
theorem lock_registers_child_before_send (ctx : Context)
    (m : SessionLockManager) (l : SessionLock) (surface : WlSurface)
    (output : WlOutput) (h h2 : HandlerId) (serial width height : Nat)
    (hwf : ctx.wf) :
    (∀ q ∈ ctx.registry, q.1 ≠ (m.Lock ctx).1.1.id) ∧
    lookupProxy (m.Lock ctx).1.1.id ((m.Lock ctx).2).registry
      = some (ProxyObj.lock (m.Lock ctx).1.1) ∧
    ((m.Lock ctx).2).oplog
      = ctx.oplog ++ [CtxOp.register (m.Lock ctx).1.1.id,
          CtxOp.send (Message.mk m.id ManagerRequestLock
            [Arg.obj (m.Lock ctx).1.1.id])] ∧
    ((((m.Lock ctx).2).addLockedHandlerOn (m.Lock ctx).1.1.id
          (some h)).dispatchEvent (m.Lock ctx).1.1.id
        (Event.mk LockEventLocked [])).2
      = [Action.rlock, Action.invokeLocked h {}, Action.runlock] ∧
    (∀ q ∈ ctx.registry, q.1 ≠ (l.GetLockSurface ctx surface output).1.1.id) ∧
    lookupProxy (l.GetLockSurface ctx surface output).1.1.id
      ((l.GetLockSurface ctx surface output).2).registry
      = some (ProxyObj.lockSurface (l.GetLockSurface ctx surface output).1.1) ∧
    ((l.GetLockSurface ctx surface output).2).oplog
      = ctx.oplog
        ++ [CtxOp.register (l.GetLockSurface ctx surface output).1.1.id,
          CtxOp.send (Message.mk l.id LockRequestGetLockSurface
            [Arg.obj (l.GetLockSurface ctx surface output).1.1.id,
              Arg.obj surface.id, Arg.obj output.id])] ∧
    ((((l.GetLockSurface ctx surface output).2).addConfigureHandlerOn
          (l.GetLockSurface ctx surface output).1.1.id
          (some h2)).dispatchEvent
        (l.GetLockSurface ctx surface output).1.1.id
        (Event.mk SurfaceEventConfigure [serial, width, height])).2
      = [Action.rlock,
          Action.invokeConfigure h2
            (SessionLockSurfaceConfigureEvent.mk serial width height),
          Action.runlock] := by
  have hfresh : ∀ q ∈ ctx.registry, q.1 ≠ ctx.nextId :=
    fun q hq => Nat.ne_of_lt (hwf q hq)
  have hlook : lookupProxy ctx.nextId
      (ctx.registry ++ [(ctx.nextId, ProxyObj.lock (SessionLock.mk ctx.nextId [] []))])
      = some (ProxyObj.lock (SessionLock.mk ctx.nextId [] [])) :=
    lookupProxy_append_fresh ctx.nextId _ ctx.registry hfresh
  have hlookS : lookupProxy ctx.nextId
      (ctx.registry
        ++ [(ctx.nextId, ProxyObj.lockSurface (SessionLockSurface.mk ctx.nextId []))])
      = some (ProxyObj.lockSurface (SessionLockSurface.mk ctx.nextId [])) :=
    lookupProxy_append_fresh ctx.nextId _ ctx.registry hfresh
  refine ⟨hfresh, hlook, ?_, ?_, hfresh, hlookS, ?_, ?_⟩
  · simp [SessionLockManager.Lock, NewSessionLock, Context.Register,
      Context.SendRequest]
  · simp only [SessionLockManager.Lock, NewSessionLock, Context.Register,
      Context.SendRequest, Context.addLockedHandlerOn, Context.dispatchEvent,
      hlook]
    have hlook2 : lookupProxy ctx.nextId
        (updateProxy ctx.nextId
          (ProxyObj.lock ((SessionLock.mk ctx.nextId [] []).AddLockedHandler
            (some h)).1)
          (ctx.registry
            ++ [(ctx.nextId, ProxyObj.lock (SessionLock.mk ctx.nextId [] []))]))
        = some (ProxyObj.lock ((SessionLock.mk ctx.nextId [] []).AddLockedHandler
            (some h)).1) := by
      refine lookupProxy_update_found ctx.nextId _ _ ?_
      rw [hlook]
      exact fun hc => Option.noConfusion hc
    simp only [hlook2]
    rfl
  · simp [SessionLock.GetLockSurface, NewSessionLockSurface, Context.Register,
      Context.SendRequest]
  · simp only [SessionLock.GetLockSurface, NewSessionLockSurface,
      Context.Register, Context.SendRequest, Context.addConfigureHandlerOn,
      Context.dispatchEvent, hlookS]
    have hlookS2 : lookupProxy ctx.nextId
        (updateProxy ctx.nextId
          (ProxyObj.lockSurface
            ((SessionLockSurface.mk ctx.nextId []).AddConfigureHandler
              (some h2)).1)
          (ctx.registry
            ++ [(ctx.nextId,
                ProxyObj.lockSurface (SessionLockSurface.mk ctx.nextId []))]))
        = some (ProxyObj.lockSurface
            ((SessionLockSurface.mk ctx.nextId []).AddConfigureHandler
              (some h2)).1) := by
      refine lookupProxy_update_found ctx.nextId _ _ ?_
      rw [hlookS]
      exact fun hc => Option.noConfusion hc
    simp only [hlookS2]
    rfl

/-- Witness for C2: on a concrete well-formed context, a configure event
addressed to the ID returned by Lock.GetLockSurface reaches the listener
attached to the returned surface proxy with the decoded fields 7, 1920,
1080. -/
theorem lock_registers_child_before_send_witness :
    ((((SessionLock.GetLockSurface (SessionLock.mk 9 [] [])
            (Context.mk 1 [] [] [] false) (WlSurface.mk 5)
            (WlOutput.mk 6)).2).addConfigureHandlerOn
          (SessionLock.GetLockSurface (SessionLock.mk 9 [] [])
            (Context.mk 1 [] [] [] false) (WlSurface.mk 5)
            (WlOutput.mk 6)).1.1.id
          (some 8)).dispatchEvent
        (SessionLock.GetLockSurface (SessionLock.mk 9 [] [])
          (Context.mk 1 [] [] [] false) (WlSurface.mk 5)
          (WlOutput.mk 6)).1.1.id
        (Event.mk SurfaceEventConfigure [7, 1920, 1080])).2
      = [Action.rlock,
          Action.invokeConfigure 8
            (SessionLockSurfaceConfigureEvent.mk 7 1920 1080),
          Action.runlock] :=
  (lock_registers_child_before_send (Context.mk 1 [] [] [] false)
    (SessionLockManager.mk 0) (SessionLock.mk 9 [] []) (WlSurface.mk 5)
    (WlOutput.mk 6) 7 8 7 1920 1080 (by decide)).2.2.2.2.2.2.2

/-- C7: When the underlying send fails, Manager.Lock and
Lock.GetLockSurface surface the transport error synchronously as the
error result while still returning the already-allocated and registered
child proxy; the local proxy state is the same as on a successful send,
and exactly one send is attempted (no retry). -/
theorem send_failure_surfaces_error (ctx : Context) (m : SessionLockManager)
    (l : SessionLock) (surface : WlSurface) (output : WlOutput)
    (hfail : ctx.sendFails = true) :
    (m.Lock ctx).1.2 = some WlError.sendFailed ∧
    ((m.Lock ctx).2).registry
      = ctx.registry
        ++ [((m.Lock ctx).1.1.id, ProxyObj.lock (m.Lock ctx).1.1)] ∧
    (m.Lock ctx).1.1 = (m.Lock { ctx with sendFails := false }).1.1 ∧
    ((m.Lock ctx).2).registry
      = ((m.Lock { ctx with sendFails := false }).2).registry ∧
    (((m.Lock ctx).2).oplog.filter CtxOp.isSend).length
      = (ctx.oplog.filter CtxOp.isSend).length + 1 ∧
    (l.GetLockSurface ctx surface output).1.2 = some WlError.sendFailed ∧
    ((l.GetLockSurface ctx surface output).2).registry
      = ctx.registry
        ++ [((l.GetLockSurface ctx surface output).1.1.id,
            ProxyObj.lockSurface (l.GetLockSurface ctx surface output).1.1)] ∧
    (l.GetLockSurface ctx surface output).1.1
      = (l.GetLockSurface { ctx with sendFails := false } surface output).1.1 ∧
    ((((l.GetLockSurface ctx surface output).2).oplog.filter
        CtxOp.isSend).length)
      = (ctx.oplog.filter CtxOp.isSend).length + 1 := by
  refine ⟨?_, rfl, rfl, rfl, ?_, ?_, rfl, rfl, ?_⟩
  · show (if ctx.sendFails then some WlError.sendFailed else none)
      = some WlError.sendFailed
    rw [hfail]
    rfl
  · show (((ctx.oplog ++ [CtxOp.register ctx.nextId])
        ++ [CtxOp.send (Message.mk m.id ManagerRequestLock
            [Arg.obj ctx.nextId])]).filter CtxOp.isSend).length
      = (ctx.oplog.filter CtxOp.isSend).length + 1
    simp [List.filter_append, CtxOp.isSend]
  · show (if ctx.sendFails then some WlError.sendFailed else none)
      = some WlError.sendFailed
    rw [hfail]
    rfl
  · show (((ctx.oplog ++ [CtxOp.register ctx.nextId])
        ++ [CtxOp.send (Message.mk l.id LockRequestGetLockSurface
            [Arg.obj ctx.nextId, Arg.obj surface.id,
              Arg.obj output.id])]).filter CtxOp.isSend).length
      = (ctx.oplog.filter CtxOp.isSend).length + 1
    simp [List.filter_append, CtxOp.isSend]

/-- Witness for C7: on a concrete context whose transport fails, Lock
returns the transport error. -/
theorem send_failure_surfaces_error_witness :
    (SessionLockManager.Lock (SessionLockManager.mk 0)
        (Context.mk 1 [] [] [] true)).1.2 = some WlError.sendFailed :=
  (send_failure_surfaces_error (Context.mk 1 [] [] [] true)
    (SessionLockManager.mk 0) (SessionLock.mk 9 [] []) (WlSurface.mk 5)
    (WlOutput.mk 6) rfl).1

end ExtSessionLock
